import Mathlib

/-!
Verification of the espanso daemon supervision core.

Shallow embedding of:
* `src/espanso/src/cli/daemon/mod.rs` — `daemon_main`,
  `terminate_worker_if_already_running`, `spawn_worker`, `ExitCode`;
* `src/espanso-path/src/helper.rs` — `extract_runtime`.

External collaborators (lock manager, IPC client/server, OS process spawn,
the crossbeam channel, child `wait`) live outside the two source files; their
outcomes enter the model as oracle values in environment records, and each
function additionally returns a trace of the externally visible actions it
performed, in program order.  Wall-clock time in the retirement retry loop
(`while now.elapsed() < 3s \x7b acquire; sleep(200ms) \x7d`) is idealized:
elapsed time advances by exactly the 200ms sleep per iteration, so the loop
performs poll attempts at elapsed times 0, 200, ..., 2800 ms and gives up
once elapsed time reaches 3000 ms.
-/

namespace Espanso

/-- The `Paths` record from `espanso_path`: the three directories the daemon
threads through to the worker.  Paths are modelled as strings. -/
structure Paths where
  config : String
  packages : String
  runtime : String
deriving DecidableEq, Repr

/-- The lifecycle IPC event variant set; this core only uses `Exit`
(`IPCEvent::Exit` in `daemon/mod.rs`). -/
inductive IPCEvent
  | Exit
deriving DecidableEq, Repr

/-- The distinct fatal-abort sites of the embedded code, one tag per
`expect`/fatal-abort message in the source. -/
inductive PanicMsg
  | missingPaths                     -- "missing paths in daemon main"
  | unableToCreateWorkerIpcClient    -- "unable to create IPC client to worker process"
  | couldNotTerminateWorker          -- "could not terminate worker process, ..."
  | unableToSpawnWorker              -- current_exe / spawn failure in spawn_worker
  | unableToInitializeIpcServer      -- "unable to initialize ipc server for daemon"
  | unableToObtainPortableRuntimeDir -- "unable to obtain runtime directory path"
  | unableToCreateRuntimeDir         -- "unable to create runtime directory"
deriving DecidableEq, Repr

/-- `pub enum ExitCode` from `daemon/mod.rs` lines 39-42. -/
inductive ExitCode
  | Success
  | ExitCodeUnwrapError
deriving DecidableEq, Repr

/-- The integer discriminant of `ExitCode` (`Success = 0`,
`ExitCodeUnwrapError = 100`), as used by `as i32` casts in `daemon_main`. -/
def ExitCode.toInt : ExitCode → Int
  | .Success => 0
  | .ExitCodeUnwrapError => 100

/-- Externally visible actions of a daemon run, recorded in program order. -/
inductive Action
  | acquireDaemonLock (ok : Bool)  -- acquire_daemon_lock(&paths.runtime)
  | createIpcClient                -- create_ipc_client_to_worker succeeded
  | acquireWorkerLock (ok : Bool)  -- acquire_worker_lock(runtime_dir)
  | sendExit                       -- worker_ipc.send(IPCEvent::Exit) attempted
  | spawnWorker                    -- spawn_worker spawned the child process
  | startIpcServer                 -- ipc::initialize_and_spawn succeeded
  | recvExitSignal                 -- one recv(exit_signal) consumed by the loop
  | releaseDaemonLock              -- the daemon LockHandle dropped at scope exit
deriving DecidableEq, Repr

/-- Result of `terminate_worker_if_already_running`: it either returns
normally or aborts the process. -/
inductive TermResult
  | ok
  | panicked (msg : PanicMsg)
deriving DecidableEq, Repr

/-- Oracle environment for `terminate_worker_if_already_running`:

* `initialWorkerLockFree` — outcome of the first `acquire_worker_lock` call
  (line 113): `true` iff it returns `Some`;
* `workerLockPoll i` — outcome of the `i`-th `acquire_worker_lock` call
  inside the retry loop (line 128);
* `sendOk` — outcome of `worker_ipc.send(IPCEvent::Exit)` (line 119).  A
  failed send is only logged (lines 120-124), so the function result never
  depends on this field. -/
structure TermEnv where
  initialWorkerLockFree : Bool
  workerLockPoll : Nat → Bool
  sendOk : Bool

/-- The 3-second retry window of the retirement loop
(`std::time::Duration::from_secs(3)`, line 127), in milliseconds. -/
def retryTimeoutMillis : Nat := 3000

/-- The sleep between poll attempts
(`std::time::Duration::from_millis(200)`, line 133), in milliseconds. -/
def pollIntervalMillis : Nat := 200

/-- The retry loop of `terminate_worker_if_already_running` (lines 126-134):
while elapsed time is below `retryTimeoutMillis`, try to acquire the worker
lock and return on success, else sleep `pollIntervalMillis` and retry.  On
window exhaustion the process aborts (line 136).  `fuel` is a structural
bound on the iteration count; any `fuel` with
`retryTimeoutMillis ≤ elapsed + pollIntervalMillis * fuel` makes the
fuel-exhaustion branch unreachable, and the entry point supplies such fuel. -/
def pollWorkerLock (poll : Nat → Bool) :
    Nat → Nat → Nat → TermResult × List Action
  | 0, _, _ => (.panicked .couldNotTerminateWorker, [])
  | fuel + 1, attempt, elapsed =>
    if elapsed < retryTimeoutMillis then
      if poll attempt then
        (.ok, [Action.acquireWorkerLock true])
      else
        let rest := pollWorkerLock poll fuel (attempt + 1)
          (elapsed + pollIntervalMillis)
        (rest.1, Action.acquireWorkerLock false :: rest.2)
    else
      (.panicked .couldNotTerminateWorker, [])

/-- Fuel sufficient for the whole retry window starting at elapsed time 0:
the loop body runs at elapsed times 0, 200, ..., 2800 (15 attempts) and the
16th guard check (elapsed 3000) exits the loop. -/
def pollFuel : Nat := 16

/-- `terminate_worker_if_already_running` (lines 112-139): if the first
worker-lock acquire succeeds, return immediately; otherwise attempt one
`Exit` send (failure only logged) and enter the retry loop.  Returns the
result together with the trace of lock/IPC actions performed. -/
def terminate_worker_if_already_running (t : TermEnv) :
    TermResult × List Action :=
  if t.initialWorkerLockFree then
    (.ok, [Action.acquireWorkerLock true])
  else
    let rest := pollWorkerLock t.workerLockPoll pollFuel 0 0
    (rest.1, Action.acquireWorkerLock false :: Action.sendExit :: rest.2)

/-- Result of a daemon run: a process exit code, or a fatal abort. -/
inductive DaemonResult
  | exit (code : Int)
  | panicked (msg : PanicMsg)
deriving DecidableEq, Repr

/-- Oracle environment for `daemon_main`:

* `pathsPresent` — whether `args.paths` is `Some` (line 60; `expect` aborts
  otherwise);
* `daemonLockFree` — outcome of `acquire_daemon_lock` (line 63): `true` iff
  it returns `Some`;
* `ipcClientOk` — whether `create_ipc_client_to_worker` succeeds (line 74);
* `term` — oracle for `terminate_worker_if_already_running`;
* `spawnOk` — whether `spawn_worker` completes (both `current_exe` and
  `command.spawn()` succeed, lines 144-170);
* `ipcServerOk` — whether `ipc::initialize_and_spawn` succeeds (line 85);
* `exitRecv` — what the single `recv(exit_signal)` in the final loop yields
  (line 94): a forwarded code, or a channel error (all senders dropped). -/
structure DaemonEnv where
  pathsPresent : Bool
  daemonLockFree : Bool
  ipcClientOk : Bool
  term : TermEnv
  spawnOk : Bool
  ipcServerOk : Bool
  exitRecv : Except Unit Int

/-- Output of a daemon run: the result and the trace of external actions in
program order.  The daemon `LockHandle` is a scoped (RAII) resource, so on
every path after a successful acquisition — normal return and unwinding
abort alike — the trace ends with `releaseDaemonLock`. -/
structure DaemonOutput where
  result : DaemonResult
  trace : List Action
deriving Repr

/-- `daemon_main` (lines 59-110): acquire the daemon lock (exit 1 if denied),
build the IPC client to the worker, retire any running worker, spawn a fresh
worker, start the daemon IPC server, then block on exactly one receive from
the exit-signal channel: a received code becomes the exit code, a channel
error maps to `ExitCode.ExitCodeUnwrapError`. -/
def daemon_main (env : DaemonEnv) : DaemonOutput :=
  if env.pathsPresent = false then
    ⟨.panicked .missingPaths, []⟩
  else if env.daemonLockFree = false then
    -- "daemon is already running!" → return 1 (lines 64-67)
    ⟨.exit 1, [Action.acquireDaemonLock false]⟩
  else if env.ipcClientOk = false then
    ⟨.panicked .unableToCreateWorkerIpcClient,
      [Action.acquireDaemonLock true, Action.releaseDaemonLock]⟩
  else
    let t := terminate_worker_if_already_running env.term
    let pre := Action.acquireDaemonLock true :: Action.createIpcClient :: t.2
    match t.1 with
    | .panicked m => ⟨.panicked m, pre ++ [Action.releaseDaemonLock]⟩
    | .ok =>
      if env.spawnOk = false then
        ⟨.panicked .unableToSpawnWorker, pre ++ [Action.releaseDaemonLock]⟩
      else if env.ipcServerOk = false then
        ⟨.panicked .unableToInitializeIpcServer,
          pre ++ [Action.spawnWorker, Action.releaseDaemonLock]⟩
      else
        -- lines 90-109: exit_code starts as Success and is overwritten by
        -- the single received signal before the loop breaks.
        let code : Int :=
          match env.exitRecv with
          | .ok c => c
          | .error _ => ExitCode.ExitCodeUnwrapError.toInt
        ⟨.exit code,
          pre ++ [Action.spawnWorker, Action.startIpcServer,
                  Action.recvExitSignal, Action.releaseDaemonLock]⟩

/-- The OS command built by `spawn_worker` (lines 144-160): program path,
argument list, and environment variables set on the child. -/
structure SpawnedCommand where
  program : String
  args : List String
  envVars : List (String × String)
deriving DecidableEq, Repr

/-- The command `spawn_worker` constructs: the espanso executable itself,
invoked with the single argument `"worker"`, with the three `ESPANSO_*`
directory variables set from `paths`. -/
def spawn_worker_command (espansoExePath : String) (paths : Paths) :
    SpawnedCommand :=
  { program := espansoExePath
    args := ["worker"]
    envVars :=
      [("ESPANSO_CONFIG_DIR", paths.config),
       ("ESPANSO_PACKAGE_DIR", paths.packages),
       ("ESPANSO_RUNTIME_DIR", paths.runtime)] }

/-- What `child.wait()` yields to the monitor thread: an error from `wait`
itself, or a termination status whose `code()` is `none` when the child was
killed by a signal. -/
inductive WaitResult
  | waitErr
  | exited (code : Option Int)
deriving DecidableEq, Repr

/-- The values the worker-status-monitor thread (lines 176-191) sends on the
exit-signal channel, given the `wait` outcome: nothing on a `wait` error, a
missing status code, or code 0; exactly the code on a non-zero code. -/
def monitorSends : WaitResult → List Int
  | .waitErr => []
  | .exited none => []
  | .exited (some code) => if code ≠ 0 then [code] else []

/-- Oracle environment for `extract_runtime`.  Modelled from the spec: the
helpers `get_runtime_dir`, `is_portable_mode`, `get_default_runtime_path`,
`get_portable_runtime_path` and `create_dir_all` called by
`src/espanso-path/src/helper.rs` are not part of the given sources, so their
outcomes are oracle fields (spec §4.1: established directory, portable vs.
standard default, fatal creation failure). -/
structure RuntimeEnv where
  establishedRuntimeDir : Option String  -- get_runtime_dir()
  portableMode : Bool                    -- is_portable_mode()
  defaultRuntimePath : String            -- get_default_runtime_path()
  portableRuntimePath : Option String    -- get_portable_runtime_path()
  createDirOk : Bool                     -- create_dir_all succeeds

/-- Result of `extract_runtime`: the resolved path plus whether the function
itself created the directory, or a fatal abort. -/
inductive ExtractResult
  | ok (path : String) (createdDir : Bool)
  | panicked (msg : PanicMsg)
deriving DecidableEq, Repr

/-- `extract_runtime` (`helper.rs` lines 5-21): an explicit override is
returned verbatim; else an already-established runtime directory is
returned; else the mode-dependent default is computed and created on disk,
aborting fatally if the portable path is unavailable or creation fails.
Modelled from the spec: the function's result value is the resolved
`runtime_dir` (spec §4.1 contract `resolve(override) -> Path`); the source
file binds the value but its return expression is not included in the given
sources. -/
def extract_runtime (env : RuntimeEnv) (force_runtime_dir : Option String) :
    ExtractResult :=
  match force_runtime_dir with
  | some runtime_dir => .ok runtime_dir false
  | none =>
    match env.establishedRuntimeDir with
    | some runtime_dir => .ok runtime_dir false
    | none =>
      let chosen : Option String :=
        if !env.portableMode then some env.defaultRuntimePath
        else env.portableRuntimePath
      match chosen with
      | none => .panicked .unableToObtainPortableRuntimeDir
      | some runtime_dir =>
        if env.createDirOk then .ok runtime_dir true
        else .panicked .unableToCreateRuntimeDir

/-! ### Helper lemmas about the retirement retry loop -/

/-- Every action in the retry loop trace is a worker-lock acquire attempt. -/
theorem pollWorkerLock_trace_mem (poll : Nat → Bool) :
    ∀ fuel attempt elapsed a, a ∈ (pollWorkerLock poll fuel attempt elapsed).2 →
      ∃ b, a = Action.acquireWorkerLock b := by
  intro fuel
  induction fuel with
  | zero =>
    intro attempt elapsed a ha
    simp [pollWorkerLock] at ha
  | succ n ih =>
    intro attempt elapsed a ha
    by_cases he : elapsed < retryTimeoutMillis
    · by_cases hp : poll attempt
      · simp [pollWorkerLock, he, hp] at ha
        exact ⟨true, ha⟩
      · simp [pollWorkerLock, he, hp] at ha
        rcases ha with h | h
        · exact ⟨false, h⟩
        · exact ih (attempt + 1) (elapsed + pollIntervalMillis) a h
    · simp [pollWorkerLock, he] at ha

/-- If no poll attempt ever succeeds, the retry loop aborts. -/
theorem pollWorkerLock_allFail (poll : Nat → Bool)
    (h : ∀ i, poll i = false) :
    ∀ fuel attempt elapsed,
      (pollWorkerLock poll fuel attempt elapsed).1 =
        .panicked .couldNotTerminateWorker := by
  intro fuel
  induction fuel with
  | zero => intro attempt elapsed; simp [pollWorkerLock]
  | succ n ih =>
    intro attempt elapsed
    by_cases he : elapsed < retryTimeoutMillis
    · simp [pollWorkerLock, he, h attempt]
      exact ih (attempt + 1) (elapsed + pollIntervalMillis)
    · simp [pollWorkerLock, he]

/-- If the `k`-th remaining poll attempt succeeds and still falls inside the
retry window (and inside the fuel), the retry loop returns normally. -/
theorem pollWorkerLock_success (poll : Nat → Bool) :
    ∀ fuel attempt elapsed k,
      elapsed + pollIntervalMillis * k < retryTimeoutMillis →
      k < fuel → poll (attempt + k) = true →
      (pollWorkerLock poll fuel attempt elapsed).1 = .ok := by
  intro fuel
  induction fuel with
  | zero => intro attempt elapsed k _ hk; omega
  | succ n ih =>
    intro attempt elapsed k hwin hk hpoll
    have he : elapsed < retryTimeoutMillis := by
      have : 0 ≤ pollIntervalMillis * k := Nat.zero_le _
      omega
    by_cases hp : poll attempt
    · simp [pollWorkerLock, he, hp]
    · rcases k with _ | k
      · rw [Nat.add_zero] at hpoll
        rw [hpoll] at hp
        exact absurd rfl hp
      · simp [pollWorkerLock, he, hp]
        apply ih (attempt + 1) (elapsed + pollIntervalMillis) k
        · simp [pollIntervalMillis] at hwin ⊢
          omega
        · omega
        · have : attempt + 1 + k = attempt + (k + 1) := by omega
          rw [this]
          exact hpoll

/-- The retirement trace never contains the daemon-lock release. -/
theorem terminate_no_release (t : TermEnv) :
    Action.releaseDaemonLock ∉ (terminate_worker_if_already_running t).2 := by
  by_cases h : t.initialWorkerLockFree
  · simp [terminate_worker_if_already_running, h]
  · simp [terminate_worker_if_already_running, h]
    intro hmem
    rcases pollWorkerLock_trace_mem t.workerLockPoll pollFuel 0 0 _ hmem with ⟨b, hb⟩
    cases hb

/-- The retirement trace never contains a spawn action. -/
theorem terminate_no_spawn (t : TermEnv) :
    Action.spawnWorker ∉ (terminate_worker_if_already_running t).2 := by
  by_cases h : t.initialWorkerLockFree
  · simp [terminate_worker_if_already_running, h]
  · simp [terminate_worker_if_already_running, h]
    intro hmem
    rcases pollWorkerLock_trace_mem t.workerLockPoll pollFuel 0 0 _ hmem with ⟨b, hb⟩
    cases hb

/-- On a denied initial acquire, exactly one `Exit` send is attempted. -/
theorem terminate_sendExit_count (t : TermEnv)
    (h : t.initialWorkerLockFree = false) :
    ((terminate_worker_if_already_running t).2).count Action.sendExit = 1 := by
  simp [terminate_worker_if_already_running, h, List.count_cons]
  apply List.count_eq_zero.mpr
  intro hmem
  rcases pollWorkerLock_trace_mem t.workerLockPoll pollFuel 0 0 _ hmem with ⟨b, hb⟩
  cases hb

/-- The retirement trace never contains a receive action. -/
theorem terminate_no_recv (t : TermEnv) :
    Action.recvExitSignal ∉ (terminate_worker_if_already_running t).2 := by
  by_cases h : t.initialWorkerLockFree
  · simp [terminate_worker_if_already_running, h]
  · simp [terminate_worker_if_already_running, h]
    intro hmem
    rcases pollWorkerLock_trace_mem t.workerLockPoll pollFuel 0 0 _ hmem with ⟨b, hb⟩
    cases hb

/-- If the initial worker-lock acquire fails and no retry succeeds, the
retirement step aborts. -/
theorem terminate_allFail (t : TermEnv)
    (h0 : t.initialWorkerLockFree = false)
    (h : ∀ i, t.workerLockPoll i = false) :
    (terminate_worker_if_already_running t).1 =
      .panicked .couldNotTerminateWorker := by
  simp [terminate_worker_if_already_running, h0]
  exact pollWorkerLock_allFail _ h pollFuel 0 0

/-! ### Claim theorems -/

/-- C1: if the worker lock is denied and, after the `Exit` event is sent, no
poll attempt within the 3-second retry window acquires the lock, then
`terminate_worker_if_already_running` aborts the process with the
kill-it-manually message and `daemon_main` never reaches `spawn_worker`, so
no new worker is spawned. -/
theorem C1_timeout_aborts_without_spawn (env : DaemonEnv)
    (hp : env.pathsPresent = true)
    (hd : env.daemonLockFree = true)
    (hc : env.ipcClientOk = true)
    (hw : env.term.initialWorkerLockFree = false)
    (hpoll : ∀ i, env.term.workerLockPoll i = false) :
    (daemon_main env).result =
        DaemonResult.panicked PanicMsg.couldNotTerminateWorker ∧
      Action.spawnWorker ∉ (daemon_main env).trace := by
  have hterm := terminate_allFail env.term hw hpoll
  constructor
  · simp [daemon_main, hp, hd, hc, hterm]
  · simp [daemon_main, hp, hd, hc, hterm]
    exact terminate_no_spawn env.term

theorem C1_witness :
    (daemon_main ⟨true, true, true, ⟨false, fun _ => false, true⟩, true,
          true, Except.ok 0⟩).result =
        DaemonResult.panicked PanicMsg.couldNotTerminateWorker ∧
      Action.spawnWorker ∉
        (daemon_main ⟨true, true, true, ⟨false, fun _ => false, true⟩, true,
          true, Except.ok 0⟩).trace :=
  C1_timeout_aborts_without_spawn _ rfl rfl rfl rfl (fun _ => rfl)

/-- C3: if the daemon lock is denied, `daemon_main` returns exit code 1
immediately; its whole trace is the single failed acquire, so no IPC client
is built, no worker is retired and nothing is spawned. -/
theorem C3_daemon_lock_denied_returns_one (env : DaemonEnv)
    (hp : env.pathsPresent = true)
    (hd : env.daemonLockFree = false) :
    (daemon_main env).result = DaemonResult.exit 1 ∧
      (daemon_main env).trace = [Action.acquireDaemonLock false] := by
  simp [daemon_main, hp, hd]

theorem C3_witness :
    (daemon_main ⟨true, false, true, ⟨true, fun _ => false, true⟩, true,
          true, Except.ok 0⟩).result = DaemonResult.exit 1 ∧
      (daemon_main ⟨true, false, true, ⟨true, fun _ => false, true⟩, true,
          true, Except.ok 0⟩).trace = [Action.acquireDaemonLock false] :=
  C3_daemon_lock_denied_returns_one _ rfl rfl

/-- C5: when the first worker-lock acquire succeeds (no worker running),
`terminate_worker_if_already_running` returns without any send, so no `Exit`
IPC event is ever sent in the run, and exactly one worker is spawned. -/
theorem C5_no_send_when_no_worker (env : DaemonEnv)
    (hp : env.pathsPresent = true)
    (hd : env.daemonLockFree = true)
    (hc : env.ipcClientOk = true)
    (hw : env.term.initialWorkerLockFree = true)
    (hs : env.spawnOk = true)
    (hv : env.ipcServerOk = true) :
    (terminate_worker_if_already_running env.term).2 =
        [Action.acquireWorkerLock true] ∧
      Action.sendExit ∉ (daemon_main env).trace ∧
      ((daemon_main env).trace).count Action.spawnWorker = 1 := by
  have hterm : terminate_worker_if_already_running env.term =
      (.ok, [Action.acquireWorkerLock true]) := by
    simp [terminate_worker_if_already_running, hw]
  refine ⟨by rw [hterm], ?_, ?_⟩
  · simp [daemon_main, hp, hd, hc, hterm, hs, hv]
  · simp [daemon_main, hp, hd, hc, hterm, hs, hv]

theorem C5_witness :
    (terminate_worker_if_already_running
          (⟨true, fun _ => false, true⟩ : TermEnv)).2 =
        [Action.acquireWorkerLock true] ∧
      Action.sendExit ∉
        (daemon_main ⟨true, true, true, ⟨true, fun _ => false, true⟩, true,
          true, Except.ok 0⟩).trace ∧
      ((daemon_main ⟨true, true, true, ⟨true, fun _ => false, true⟩, true,
          true, Except.ok 0⟩).trace).count Action.spawnWorker = 1 :=
  C5_no_send_when_no_worker
    ⟨true, true, true, ⟨true, fun _ => false, true⟩, true, true, Except.ok 0⟩
    rfl rfl rfl rfl rfl rfl

/-- C7: `spawn_worker` builds the command from the current executable with
the single argument `"worker"` and sets exactly the three environment
variables `ESPANSO_CONFIG_DIR`, `ESPANSO_PACKAGE_DIR`, and
`ESPANSO_RUNTIME_DIR`, bound to the config, packages, and runtime paths. -/
theorem C7_spawn_command_shape (exe : String) (p : Paths) :
    (spawn_worker_command exe p).program = exe ∧
      (spawn_worker_command exe p).args = ["worker"] ∧
      (spawn_worker_command exe p).envVars =
        [("ESPANSO_CONFIG_DIR", p.config),
         ("ESPANSO_PACKAGE_DIR", p.packages),
         ("ESPANSO_RUNTIME_DIR", p.runtime)] :=
  ⟨rfl, rfl, rfl⟩

/-- C9: the monitor thread sends nothing when `wait` itself errors or when
the worker dies without an exit status code; both cases are
indistinguishable from a clean zero-status exit. -/
theorem C9_monitor_silent_on_abnormal_wait :
    monitorSends WaitResult.waitErr = [] ∧
      monitorSends (WaitResult.exited none) = [] ∧
      monitorSends WaitResult.waitErr =
        monitorSends (WaitResult.exited (some 0)) ∧
      monitorSends (WaitResult.exited none) =
        monitorSends (WaitResult.exited (some 0)) := by
  simp [monitorSends]

/-- C2: a worker that terminates with status 0 produces nothing on the
exit-signal channel; one that terminates with status `N ≠ 0` produces
exactly `[N]`, and when the daemon's single receive yields that forwarded
value, `daemon_main` returns `N` as its final exit code. -/
theorem C2_worker_exit_code_forwarded (N : Int) (env : DaemonEnv)
    (hN : N ≠ 0)
    (hp : env.pathsPresent = true)
    (hd : env.daemonLockFree = true)
    (hc : env.ipcClientOk = true)
    (ht : (terminate_worker_if_already_running env.term).1 = TermResult.ok)
    (hs : env.spawnOk = true)
    (hv : env.ipcServerOk = true)
    (hr : env.exitRecv = Except.ok N) :
    monitorSends (WaitResult.exited (some 0)) = [] ∧
      monitorSends (WaitResult.exited (some N)) = [N] ∧
      (daemon_main env).result = DaemonResult.exit N := by
  refine ⟨by simp [monitorSends], by simp [monitorSends, hN], ?_⟩
  simp [daemon_main, hp, hd, hc, ht, hs, hv, hr]

theorem C2_witness :
    (7 : Int) ≠ 0 ∧
      monitorSends (WaitResult.exited (some 0)) = [] ∧
      monitorSends (WaitResult.exited (some 7)) = [(7 : Int)] ∧
      (daemon_main ⟨true, true, true, ⟨true, fun _ => false, true⟩, true,
          true, Except.ok 7⟩).result = DaemonResult.exit 7 :=
  ⟨by decide,
    C2_worker_exit_code_forwarded 7
      ⟨true, true, true, ⟨true, fun _ => false, true⟩, true, true,
        Except.ok 7⟩
      (by decide) rfl rfl rfl rfl rfl rfl rfl⟩

/-- C6: when the single receive on the exit-signal channel yields a channel
error, `daemon_main` returns the internal-fault code 100, which is exactly
`ExitCode.ExitCodeUnwrapError`, and the final loop consumes exactly one
receive before terminating. -/
theorem C6_channel_error_maps_to_100 (env : DaemonEnv)
    (hp : env.pathsPresent = true)
    (hd : env.daemonLockFree = true)
    (hc : env.ipcClientOk = true)
    (ht : (terminate_worker_if_already_running env.term).1 = TermResult.ok)
    (hs : env.spawnOk = true)
    (hv : env.ipcServerOk = true)
    (hr : env.exitRecv = Except.error ()) :
    (daemon_main env).result = DaemonResult.exit 100 ∧
      ExitCode.ExitCodeUnwrapError.toInt = 100 ∧
      ((daemon_main env).trace).count Action.recvExitSignal = 1 := by
  refine ⟨?_, rfl, ?_⟩
  · simp [daemon_main, hp, hd, hc, ht, hs, hv, hr, ExitCode.toInt]
  · simp [daemon_main, hp, hd, hc, ht, hs, hv, List.count_append,
      List.count_cons]
    apply List.count_eq_zero.mpr
    exact terminate_no_recv env.term

theorem C6_witness :
    (daemon_main ⟨true, true, true, ⟨true, fun _ => false, true⟩, true,
          true, Except.error ()⟩).result = DaemonResult.exit 100 ∧
      ExitCode.ExitCodeUnwrapError.toInt = 100 ∧
      ((daemon_main ⟨true, true, true, ⟨true, fun _ => false, true⟩, true,
          true, Except.error ()⟩).trace).count Action.recvExitSignal = 1 :=
  C6_channel_error_maps_to_100
    ⟨true, true, true, ⟨true, fun _ => false, true⟩, true, true,
      Except.error ()⟩
    rfl rfl rfl rfl rfl rfl rfl

/-- C4: when the initial worker-lock acquire is denied, exactly one `Exit`
send is attempted, the lock is then polled at 200ms intervals within the
3-second window, and if some attempt inside the window succeeds the
retirement step returns normally and the run spawns exactly one worker. -/
theorem C4_retire_then_spawn_once (env : DaemonEnv)
    (hp : env.pathsPresent = true)
    (hd : env.daemonLockFree = true)
    (hc : env.ipcClientOk = true)
    (hw : env.term.initialWorkerLockFree = false)
    (hpoll : ∃ i, pollIntervalMillis * i < retryTimeoutMillis ∧
      env.term.workerLockPoll i = true)
    (hs : env.spawnOk = true)
    (hv : env.ipcServerOk = true) :
    (terminate_worker_if_already_running env.term).1 = TermResult.ok ∧
      ((daemon_main env).trace).count Action.sendExit = 1 ∧
      ((daemon_main env).trace).count Action.spawnWorker = 1 := by
  obtain ⟨i, hi, hpi⟩ := hpoll
  have ht : (terminate_worker_if_already_running env.term).1 =
      TermResult.ok := by
    simp [terminate_worker_if_already_running, hw]
    apply pollWorkerLock_success env.term.workerLockPoll pollFuel 0 0 i
    · simpa using hi
    · simp [pollIntervalMillis, retryTimeoutMillis] at hi
      simp [pollFuel]
      omega
    · simpa using hpi
  refine ⟨ht, ?_, ?_⟩
  · simp [daemon_main, hp, hd, hc, ht, hs, hv, List.count_append,
      List.count_cons]
    exact terminate_sendExit_count env.term hw
  · simp [daemon_main, hp, hd, hc, ht, hs, hv, List.count_append,
      List.count_cons]
    apply List.count_eq_zero.mpr
    exact terminate_no_spawn env.term

theorem C4_witness :
    (terminate_worker_if_already_running
          (⟨false, fun _ => true, true⟩ : TermEnv)).1 = TermResult.ok ∧
      ((daemon_main ⟨true, true, true, ⟨false, fun _ => true, true⟩, true,
          true, Except.ok 0⟩).trace).count Action.sendExit = 1 ∧
      ((daemon_main ⟨true, true, true, ⟨false, fun _ => true, true⟩, true,
          true, Except.ok 0⟩).trace).count Action.spawnWorker = 1 :=
  C4_retire_then_spawn_once
    ⟨true, true, true, ⟨false, fun _ => true, true⟩, true, true,
      Except.ok 0⟩
    rfl rfl rfl rfl ⟨0, by decide, rfl⟩ rfl rfl

/-- C8: an explicit override path is returned verbatim with no directory
creation; an established runtime directory is likewise returned without
creation; only when both are absent is the mode-dependent default computed
and created, aborting fatally when creation (or portable-path resolution)
fails. -/
theorem C8_extract_runtime_resolution (env : RuntimeEnv) (d : String) :
    extract_runtime env (some d) = ExtractResult.ok d false ∧
      (∀ r, env.establishedRuntimeDir = some r →
        extract_runtime env none = ExtractResult.ok r false) ∧
      (env.establishedRuntimeDir = none → env.portableMode = false →
        extract_runtime env none =
          if env.createDirOk then
            ExtractResult.ok env.defaultRuntimePath true
          else ExtractResult.panicked PanicMsg.unableToCreateRuntimeDir) ∧
      (env.establishedRuntimeDir = none → env.portableMode = true →
        extract_runtime env none =
          match env.portableRuntimePath with
          | none =>
            ExtractResult.panicked PanicMsg.unableToObtainPortableRuntimeDir
          | some p =>
            if env.createDirOk then ExtractResult.ok p true
            else ExtractResult.panicked PanicMsg.unableToCreateRuntimeDir) := by
  refine ⟨rfl, ?_, ?_, ?_⟩
  · intro r hr
    simp [extract_runtime, hr]
  · intro he hm
    simp [extract_runtime, he, hm]
  · intro he hm
    cases hpp : env.portableRuntimePath with
    | none => simp [extract_runtime, he, hm, hpp]
    | some p => simp [extract_runtime, he, hm, hpp]

theorem C8_witness :
    extract_runtime ⟨none, false, "/default", none, false⟩ (some "/override")
        = ExtractResult.ok "/override" false ∧
      extract_runtime ⟨none, false, "/default", none, false⟩ none
        = ExtractResult.panicked PanicMsg.unableToCreateRuntimeDir := by
  refine
    ⟨(C8_extract_runtime_resolution
        ⟨none, false, "/default", none, false⟩ "/override").1, ?_⟩
  have h := (C8_extract_runtime_resolution
    ⟨none, false, "/default", none, false⟩ "/override").2.2.1 rfl rfl
  simpa using h

/-- C10: once the daemon lock is acquired, it is held for the remainder of
the run: every trace of `daemon_main` after a successful acquisition starts
with the acquisition, ends with the scope-exit release, and releases the
daemon lock nowhere else. -/
theorem C10_daemon_lock_held_throughout (env : DaemonEnv)
    (hp : env.pathsPresent = true)
    (hd : env.daemonLockFree = true) :
    ∃ body, (daemon_main env).trace =
        Action.acquireDaemonLock true ::
          (body ++ [Action.releaseDaemonLock]) ∧
      Action.releaseDaemonLock ∉ body := by
  cases hc : env.ipcClientOk with
  | false => exact ⟨[], by simp [daemon_main, hp, hd, hc], by simp⟩
  | true =>
    cases htr : (terminate_worker_if_already_running env.term).1 with
    | panicked m =>
      refine ⟨Action.createIpcClient ::
        (terminate_worker_if_already_running env.term).2, ?_, ?_⟩
      · simp [daemon_main, hp, hd, hc, htr]
      · simp
        exact terminate_no_release env.term
    | ok =>
      cases hs : env.spawnOk with
      | false =>
        refine ⟨Action.createIpcClient ::
          (terminate_worker_if_already_running env.term).2, ?_, ?_⟩
        · simp [daemon_main, hp, hd, hc, htr, hs]
        · simp
          exact terminate_no_release env.term
      | true =>
        cases hv : env.ipcServerOk with
        | false =>
          refine ⟨Action.createIpcClient ::
            ((terminate_worker_if_already_running env.term).2 ++
              [Action.spawnWorker]), ?_, ?_⟩
          · simp [daemon_main, hp, hd, hc, htr, hs, hv]
          · simp
            exact terminate_no_release env.term
        | true =>
          refine ⟨Action.createIpcClient ::
            ((terminate_worker_if_already_running env.term).2 ++
              [Action.spawnWorker, Action.startIpcServer,
               Action.recvExitSignal]), ?_, ?_⟩
          · simp [daemon_main, hp, hd, hc, htr, hs, hv]
          · simp
            exact terminate_no_release env.term

theorem C10_witness :
    ∃ body,
      (daemon_main ⟨true, true, true, ⟨true, fun _ => false, true⟩, true,
          true, Except.ok 0⟩).trace =
        Action.acquireDaemonLock true ::
          (body ++ [Action.releaseDaemonLock]) ∧
      Action.releaseDaemonLock ∉ body :=
  C10_daemon_lock_held_throughout
    ⟨true, true, true, ⟨true, fun _ => false, true⟩, true, true,
      Except.ok 0⟩
    rfl rfl

end Espanso
